import Mathlib

/-!
Verification development for the `aduana` Docker-registry client
(`src/lib.rs`, `src/registry.rs`).

The two source files are shallowly embedded below: the serde wire types of
`registry.rs` become Lean structures with executable deserializers over a
small JSON value type, and the HTTP-driven operations of `lib.rs`
(`images`, `retrieve_image`, `details`, `retrieve_blob`, `client`) become
pure functions parameterised by an environment `HttpEnv` that plays the
role of the network (certificate parser, client builder, GET responses).
Each operation also records the trace of HTTP requests it issued, so that
statements about the number and order of fetches can be proved.
-/

/-- JSON values, the input domain of the serde deserializers in
`registry.rs`. -/
inductive Json where
  | null : Json
  | bool (b : Bool) : Json
  | num (n : Int) : Json
  | str (s : String) : Json
  | arr (elems : List Json) : Json
  | obj (fields : List (String × Json)) : Json

/-- serde's string deserializer: accepts exactly a JSON string. -/
def Json.getStr : Json → Except String String
  | .str s => .ok s
  | _ => .error "invalid type: expected a string"

/-- Element-wise string parsing of a JSON array body (serde's `Vec<String>`
visitor applied to the elements of a sequence). -/
def strListAux : List Json → Except String (List String)
  | [] => .ok []
  | j :: rest =>
    match j.getStr with
    | .error m => .error m
    | .ok s =>
      match strListAux rest with
      | .error m => .error m
      | .ok ss => .ok (s :: ss)

/-- serde's `Vec<String>` deserializer: accepts exactly a JSON sequence of
strings.  In particular a JSON `null` is a type error, not an empty vector:
`#[serde(default)]` only fires for a *missing* field. -/
def Json.getStrList : Json → Except String (List String)
  | .arr xs => strListAux xs
  | _ => .error "invalid type: expected a sequence"

/-- Entry-wise string parsing of a JSON object body (serde's
`HashMap<String, String>` visitor).  The map is modelled as the association
list in wire order. -/
def strMapAux : List (String × Json) → Except String (List (String × String))
  | [] => .ok []
  | (k, v) :: rest =>
    match v.getStr with
    | .error m => .error m
    | .ok s =>
      match strMapAux rest with
      | .error m => .error m
      | .ok ss => .ok ((k, s) :: ss)

/-- serde's `HashMap<String, String>` deserializer: accepts exactly a JSON
map with string values; `null` is a type error. -/
def Json.getStrMap : Json → Except String (List (String × String))
  | .obj fs => strMapAux fs
  | _ => .error "invalid type: expected a map"

/-- serde's `Option<T>` deserializer: JSON `null` becomes `none`, anything
else is delegated to the inner deserializer. -/
def deOption (de : Json → Except String α) : Json → Except String (Option α)
  | .null => .ok none
  | j =>
    match de j with
    | .error m => .error m
    | .ok a => .ok (some a)

/-- `registry.rs` lines 5-12: `deserialize_null_default` — deserialize an
`Option<T>` and replace `None` (i.e. a JSON `null`) by the default value. -/
def deserialize_null_default (de : Json → Except String α) (dflt : α) (j : Json) :
    Except String α :=
  match deOption de j with
  | .error m => .error m
  | .ok o => .ok (o.getD dflt)

/-- Wire shape of `GET /v2/_catalog` (`ResponseCatalog`). -/
structure ResponseCatalog where
  repositories : List String
deriving DecidableEq

/-- Deserializer derived for `ResponseCatalog` (field required, camelCase). -/
def ResponseCatalog.deserialize : Json → Except String ResponseCatalog
  | .obj fs =>
    match List.lookup "repositories" fs with
    | none => .error "missing field repositories"
    | some v =>
      match v.getStrList with
      | .error m => .error m
      | .ok rs => .ok ⟨rs⟩
  | _ => .error "invalid type: expected struct ResponseCatalog"

/-- Wire shape of `GET /v2/{name}/tags/list` (`ResponseImage`). -/
structure ResponseImage where
  name : String
  tags : List String
deriving DecidableEq

/-- Deserializer derived for `ResponseImage` (both fields required). -/
def ResponseImage.deserialize : Json → Except String ResponseImage
  | .obj fs =>
    match List.lookup "name" fs with
    | none => .error "missing field name"
    | some nv =>
      match nv.getStr with
      | .error m => .error m
      | .ok n =>
        match List.lookup "tags" fs with
        | none => .error "missing field tags"
        | some tv =>
          match tv.getStrList with
          | .error m => .error m
          | .ok ts => .ok ⟨n, ts⟩
  | _ => .error "invalid type: expected struct ResponseImage"

/-- Nested `config` object of a manifest (`ResponseConfig`). -/
structure ResponseConfig where
  digest : String
deriving DecidableEq

/-- Deserializer derived for `ResponseConfig` (`digest` required). -/
def ResponseConfig.deserialize : Json → Except String ResponseConfig
  | .obj fs =>
    match List.lookup "digest" fs with
    | none => .error "missing field digest"
    | some v =>
      match v.getStr with
      | .error m => .error m
      | .ok d => .ok ⟨d⟩
  | _ => .error "invalid type: expected struct ResponseConfig"

/-- Wire shape of `GET /v2/{name}/manifests/{tag}` (`ResponseManifest`). -/
structure ResponseManifest where
  config : ResponseConfig
deriving DecidableEq

/-- Deserializer derived for `ResponseManifest` (`config` required). -/
def ResponseManifest.deserialize : Json → Except String ResponseManifest
  | .obj fs =>
    match List.lookup "config" fs with
    | none => .error "missing field config"
    | some v =>
      match ResponseConfig.deserialize v with
      | .error m => .error m
      | .ok c => .ok ⟨c⟩
  | _ => .error "invalid type: expected struct ResponseManifest"

/-- `registry.rs` lines 47-56: the nested config object of a config blob.
`#[serde(default, rename_all = "PascalCase")]`: every *missing* field takes
its `Default` value; only `labels` additionally coalesces an explicit JSON
`null` through `deserialize_null_default`. -/
structure ConfigDetails where
  user : Option String
  env : List String
  cmd : List String
  working_dir : Option String
  labels : List (String × String)
deriving DecidableEq

/-- Field deserializer for an optional-string field of `ConfigDetails`:
missing ⇒ serde(default) `None`; present ⇒ `Option<String>` deserializer. -/
def fieldOptStr (key : String) (fs : List (String × Json)) :
    Except String (Option String) :=
  match List.lookup key fs with
  | none => .ok none
  | some v => deOption Json.getStr v

/-- Field deserializer for a string-vector field of `ConfigDetails`:
missing ⇒ serde(default) `[]`; present ⇒ `Vec<String>` deserializer (which
rejects `null`). -/
def fieldStrList (key : String) (fs : List (String × Json)) :
    Except String (List String) :=
  match List.lookup key fs with
  | none => .ok []
  | some v => v.getStrList

/-- Field deserializer for `labels`: missing ⇒ serde(default) empty map;
present ⇒ `deserialize_null_default`, which maps `null` to the empty map. -/
def fieldLabels (fs : List (String × Json)) :
    Except String (List (String × String)) :=
  match List.lookup "Labels" fs with
  | none => .ok []
  | some v => deserialize_null_default Json.getStrMap [] v

/-- Deserializer derived for `ConfigDetails` (PascalCase keys, struct-level
`serde(default)`). -/
def ConfigDetails.deserialize : Json → Except String ConfigDetails
  | .obj fs =>
    match fieldOptStr "User" fs with
    | .error m => .error m
    | .ok user =>
      match fieldStrList "Env" fs with
      | .error m => .error m
      | .ok env =>
        match fieldStrList "Cmd" fs with
        | .error m => .error m
        | .ok cmd =>
          match fieldOptStr "WorkingDir" fs with
          | .error m => .error m
          | .ok wd =>
            match fieldLabels fs with
            | .error m => .error m
            | .ok labels => .ok ⟨user, env, cmd, wd, labels⟩
  | _ => .error "invalid type: expected struct ConfigDetails"

/-- Wire shape of `GET /v2/{name}/blobs/{digest}` (`ResponseConfigBlob`).
Note that `architecture`, `config` and `created` are all *required*: the
struct has no `serde(default)` of its own. -/
structure ResponseConfigBlob where
  architecture : String
  config : ConfigDetails
  created : String
deriving DecidableEq

/-- Deserializer derived for `ResponseConfigBlob` (all fields required). -/
def ResponseConfigBlob.deserialize : Json → Except String ResponseConfigBlob
  | .obj fs =>
    match List.lookup "architecture" fs with
    | none => .error "missing field architecture"
    | some av =>
      match av.getStr with
      | .error m => .error m
      | .ok a =>
        match List.lookup "config" fs with
        | none => .error "missing field config"
        | some cv =>
          match ConfigDetails.deserialize cv with
          | .error m => .error m
          | .ok c =>
            match List.lookup "created" fs with
            | none => .error "missing field created"
            | some dv =>
              match dv.getStr with
              | .error m => .error m
              | .ok d => .ok ⟨a, c, d⟩
  | _ => .error "invalid type: expected struct ResponseConfigBlob"

/-- The slice of `reqwest::Error` that `lib.rs` inspects: the `is_connect`
and `is_builder` predicates, the optional URL, and the display string. -/
structure ReqwestError where
  is_connect : Bool
  is_builder : Bool
  url : Option String
  msg : String
deriving DecidableEq

/-- `lib.rs` lines 41-47: the public error enum. -/
inductive AduanaError where
  | Connection (url : String) (reason : String) : AduanaError
  | Runtime (msg : String) : AduanaError
deriving DecidableEq

/-- The display string of the anyhow error built on the non-connect branch
of `From<reqwest::Error>`: `"Failed to get images from {:?}. {:?}"`. -/
def runtimeMsg (e : ReqwestError) : String :=
  "Failed to get images from " ++
    (match e.url with
     | some u => "Some(" ++ u ++ ")"
     | none => "None") ++ ". " ++ e.msg

/-- `lib.rs` lines 49-68: `impl From<reqwest::Error> for AduanaError`.
Connect-phase or builder errors become `Connection` carrying the error's
URL, or the literal `"invalid"` when it has none; everything else becomes
`Runtime`. -/
def AduanaError.fromReqwest (e : ReqwestError) : AduanaError :=
  if e.is_connect || e.is_builder then
    .Connection (e.url.getD "invalid") e.msg
  else
    .Runtime (runtimeMsg e)

/-- One HTTP GET request as issued by the client: its URL and the optional
`Accept` header value. -/
structure Request where
  url : String
  accept : Option String
deriving DecidableEq

/-- The network environment the embedded operations run against:
`certFromPem` models `Certificate::from_pem`, `buildClient` models
`ClientBuilder::build`, and `send` models issuing a GET and reading the
response body (`none` = a body that is not JSON at all). -/
structure HttpEnv where
  certFromPem : List Nat → Except String Unit
  buildClient : Except String Unit
  send : Request → Except ReqwestError (Option Json)

/-- Result of an embedded operation: the value or error, paired with the
trace of HTTP requests issued, in order. -/
abbrev HttpM (α : Type) : Type := Except AduanaError α × List Request

/-- `Response::json::<T>()`: fails if the body is not JSON or does not match
the expected shape. -/
def respJson (de : Json → Except String α) : Option Json → Except String α
  | none => .error "error decoding response body"
  | some j => de j

/-- `lib.rs` lines 158-162: the inspector — base URL plus optional PEM
certificate bytes. -/
structure AduanaInspector where
  url : String
  cert : Option (List Nat)
deriving DecidableEq

/-- `AduanaInspector::new`: given URL, no certificate, no URL validation. -/
def AduanaInspector.new (url : String) : AduanaInspector :=
  { url := url, cert := none }

/-- `AduanaInspector::with_cert`: attach PEM certificate bytes. -/
def AduanaInspector.with_cert (insp : AduanaInspector) (pem : List Nat) :
    AduanaInspector :=
  { insp with cert := some pem }

/-- `lib.rs` lines 71-76: a repository handle — the inspector it borrows,
the repository name and its tag list. -/
structure AduanaImage where
  inspector : AduanaInspector
  name : String
  tags : List String
deriving DecidableEq

/-- `lib.rs` lines 78-89: fully resolved metadata for one (name, tag). -/
structure ImageDetails where
  name : String
  tag : String
  user : Option String
  env : List String
  cmd : List String
  working_dir : Option String
  labels : List (String × String)
  arch : String
  created : String
deriving DecidableEq

/-- `lib.rs` lines 91-103: `client(pem)` — parse the optional PEM
certificate and build the HTTP client.  Both failure modes are wrapped with
`anyhow` context and surface as `Runtime` errors. -/
def client (net : HttpEnv) (pem : Option (List Nat)) : Except AduanaError Unit :=
  match pem with
  | some bytes =>
    match net.certFromPem bytes with
    | .error m => .error (.Runtime ("Failed to parse PEM certificate: " ++ m))
    | .ok _ =>
      match net.buildClient with
      | .error m => .error (.Runtime ("Failed to build client! " ++ m))
      | .ok _ => .ok ()
  | none =>
    match net.buildClient with
    | .error m => .error (.Runtime ("Failed to build client! " ++ m))
    | .ok _ => .ok ()

/-- The catalog request: `GET {url}/v2/_catalog`, no Accept header. -/
def catalogReq (insp : AduanaInspector) : Request :=
  { url := insp.url ++ "/v2/_catalog", accept := none }

/-- The tag-list request: `GET {url}/v2/{name}/tags/list`. -/
def tagsReq (insp : AduanaInspector) (name : String) : Request :=
  { url := insp.url ++ "/v2/" ++ name ++ "/tags/list", accept := none }

/-- The manifest media type requested via the `Accept` header. -/
def manifestV2Accept : String :=
  "application/vnd.docker.distribution.manifest.v2+json"

/-- The manifest request: `GET {url}/v2/{name}/manifests/{tag}` with the
Docker distribution manifest v2 Accept header. -/
def manifestReq (img : AduanaImage) (tag : String) : Request :=
  { url := img.inspector.url ++ "/v2/" ++ img.name ++ "/manifests/" ++ tag,
    accept := some manifestV2Accept }

/-- The blob request: `GET {url}/v2/{name}/blobs/{digest}`. -/
def blobReq (img : AduanaImage) (digest : String) : Request :=
  { url := img.inspector.url ++ "/v2/" ++ img.name ++ "/blobs/" ++ digest,
    accept := none }

/-- `lib.rs` lines 209-215: `retrieve_image` — build a client, GET the
tag list and parse it.  A JSON decode failure is a non-connect, non-builder
reqwest error carrying the request URL. -/
def retrieve_image (net : HttpEnv) (insp : AduanaInspector) (name : String) :
    HttpM ResponseImage :=
  match client net insp.cert with
  | .error e => (.error e, [])
  | .ok _ =>
    match net.send (tagsReq insp name) with
    | .error e => (.error (.fromReqwest e), [tagsReq insp name])
    | .ok body =>
      match respJson ResponseImage.deserialize body with
      | .error m =>
        (.error (.fromReqwest ⟨false, false, some (tagsReq insp name).url, m⟩),
         [tagsReq insp name])
      | .ok ri => (.ok ri, [tagsReq insp name])

/-- The `for name in catalog.repositories` loop of `images()`: fetch each
repository's tag list in catalog order, abort on the first failure. -/
def imagesLoop (net : HttpEnv) (insp : AduanaInspector) :
    List String → HttpM (List AduanaImage)
  | [] => (.ok [], [])
  | n :: rest =>
    match retrieve_image net insp n with
    | (.error e, t) => (.error e, t)
    | (.ok ri, t) =>
      match imagesLoop net insp rest with
      | (.error e, t2) => (.error e, t ++ t2)
      | (.ok others, t2) =>
        (.ok ({ inspector := insp, name := ri.name, tags := ri.tags } :: others),
         t ++ t2)

/-- `lib.rs` lines 187-207: `images()` — build a client, GET the catalog,
parse it (a parse failure is wrapped with the context
`"Failed to parse catalog response"` and becomes a `Runtime` error), then
fetch every repository's tag list in catalog order. -/
def AduanaInspector.images (net : HttpEnv) (insp : AduanaInspector) :
    HttpM (List AduanaImage) :=
  match client net insp.cert with
  | .error e => (.error e, [])
  | .ok _ =>
    match net.send (catalogReq insp) with
    | .error e => (.error (.fromReqwest e), [catalogReq insp])
    | .ok body =>
      match respJson ResponseCatalog.deserialize body with
      | .error m =>
        (.error (.Runtime ("Failed to parse catalog response: " ++ m)),
         [catalogReq insp])
      | .ok catalog =>
        match imagesLoop net insp catalog.repositories with
        | (r, t) => (r, catalogReq insp :: t)

/-- `lib.rs` lines 149-155: `retrieve_blob` — build a client, GET the blob
at the given digest and parse it as a config blob. -/
def retrieve_blob (net : HttpEnv) (img : AduanaImage) (digest : String) :
    HttpM ResponseConfigBlob :=
  match client net img.inspector.cert with
  | .error e => (.error e, [])
  | .ok _ =>
    match net.send (blobReq img digest) with
    | .error e => (.error (.fromReqwest e), [blobReq img digest])
    | .ok body =>
      match respJson ResponseConfigBlob.deserialize body with
      | .error m =>
        (.error (.fromReqwest ⟨false, false, some (blobReq img digest).url, m⟩),
         [blobReq img digest])
      | .ok b => (.ok b, [blobReq img digest])

/-- `lib.rs` lines 117-147: `details(tag)` — build a client, GET the
manifest with the v2 Accept header, extract the config digest, fetch the
blob at that digest, and merge blob fields with the requested name/tag. -/
def AduanaImage.details (net : HttpEnv) (img : AduanaImage) (tag : String) :
    HttpM ImageDetails :=
  match client net img.inspector.cert with
  | .error e => (.error e, [])
  | .ok _ =>
    match net.send (manifestReq img tag) with
    | .error e => (.error (.fromReqwest e), [manifestReq img tag])
    | .ok body =>
      match respJson ResponseManifest.deserialize body with
      | .error m =>
        (.error (.fromReqwest ⟨false, false, some (manifestReq img tag).url, m⟩),
         [manifestReq img tag])
      | .ok manifest =>
        match retrieve_blob net img manifest.config.digest with
        | (.error e, t) => (.error e, manifestReq img tag :: t)
        | (.ok blob, t) =>
          (.ok { name := img.name, tag := tag, user := blob.config.user,
                 env := blob.config.env, cmd := blob.config.cmd,
                 working_dir := blob.config.working_dir,
                 labels := blob.config.labels, arch := blob.architecture,
                 created := blob.created },
           manifestReq img tag :: t)

/-- Two successive calls of `details(tag)` on the same image against the
same environment, results paired. -/
def detailsTwice (net : HttpEnv) (img : AduanaImage) (tag : String) :
    HttpM (ImageDetails × ImageDetails) :=
  match AduanaImage.details net img tag with
  | (.error e, t) => (.error e, t)
  | (.ok a, t) =>
    match AduanaImage.details net img tag with
    | (.error e, t2) => (.error e, t ++ t2)
    | (.ok b, t2) => (.ok (a, b), t ++ t2)

/-! ### Helper lemmas shared by the claim theorems -/

/-- A successful `retrieve_image`: when the client builds, the tag-list
request succeeds and its body parses, the result is the parsed tag-list
response and exactly one request was issued. -/
theorem retrieve_image_ok (net : HttpEnv) (insp : AduanaInspector) (n : String)
    (b : Option Json) (ri : ResponseImage)
    (hclient : client net insp.cert = Except.ok ())
    (hsend : net.send (tagsReq insp n) = Except.ok b)
    (hparse : respJson ResponseImage.deserialize b = Except.ok ri) :
    retrieve_image net insp n = (Except.ok ri, [tagsReq insp n]) := by
  unfold retrieve_image
  simp only [hclient, hsend, hparse]

/-- The repository loop at a list of names, when every per-name fetch
succeeds: the handles carry the responses' names and tags, in order, and
one tag-list request is issued per name. -/
theorem imagesLoop_ok (net : HttpEnv) (insp : AduanaInspector)
    (tagsOf : String → ResponseImage) :
    ∀ names : List String,
    (∀ n ∈ names, retrieve_image net insp n = (Except.ok (tagsOf n), [tagsReq insp n])) →
    imagesLoop net insp names =
      (Except.ok (names.map fun n =>
         { inspector := insp, name := (tagsOf n).name, tags := (tagsOf n).tags }),
       names.map fun n => tagsReq insp n) := by
  intro names
  induction names with
  | nil => intro _; rfl
  | cons m rest ih =>
    intro h
    unfold imagesLoop
    rw [h m (List.mem_cons_self m rest), ih (fun n hn => h n (List.mem_cons_of_mem m hn))]
    simp [List.map_cons]

/-- A fully successful `images()`: the handles are in catalog order, one
per repository, each built from its tag-list response, and the trace is
the catalog request followed by one tag-list request per catalog name. -/
theorem images_ok (net : HttpEnv) (insp : AduanaInspector) (cbody : Option Json)
    (repos : List String) (tagsOf : String → ResponseImage)
    (hclient : client net insp.cert = Except.ok ())
    (hsend : net.send (catalogReq insp) = Except.ok cbody)
    (hcat : respJson ResponseCatalog.deserialize cbody = Except.ok ⟨repos⟩)
    (htags : ∀ n ∈ repos,
      retrieve_image net insp n = (Except.ok (tagsOf n), [tagsReq insp n])) :
    AduanaInspector.images net insp =
      (Except.ok (repos.map fun n =>
         { inspector := insp, name := (tagsOf n).name, tags := (tagsOf n).tags }),
       catalogReq insp :: repos.map fun n => tagsReq insp n) := by
  unfold AduanaInspector.images
  simp only [hclient, hsend, hcat, imagesLoop_ok net insp tagsOf repos htags]

/-- The repository loop fails whenever the tag-list fetch of any member of
the list fails: no list of handles is produced. -/
theorem imagesLoop_fails (net : HttpEnv) (insp : AduanaInspector) (e : AduanaError) :
    ∀ (names : List String) (n : String), n ∈ names →
    (retrieve_image net insp n).1 = Except.error e →
    ∃ e2, (imagesLoop net insp names).1 = Except.error e2 := by
  intro names
  induction names with
  | nil => intro n hn _; exact absurd hn (List.not_mem_nil n)
  | cons m rest ih =>
    intro n hn hf
    unfold imagesLoop
    rcases hm : retrieve_image net insp m with ⟨r, t⟩
    rcases r with e1 | ri
    · exact ⟨e1, rfl⟩
    · rcases List.mem_cons.mp hn with hnm | hn2
      · rw [hnm, hm] at hf
        simp at hf
      · obtain ⟨e2, h2⟩ := ih n hn2 hf
        rcases hL : imagesLoop net insp rest with ⟨r2, t2⟩
        rw [hL] at h2
        rcases r2 with e3 | l
        · exact ⟨e3, rfl⟩
        · simp at h2

/-- `client` depends only on the certificate parser and the client builder
of the environment. -/
theorem client_ext (net1 net2 : HttpEnv)
    (hcert : ∀ b, net1.certFromPem b = net2.certFromPem b)
    (hbuild : net1.buildClient = net2.buildClient)
    (pem : Option (List Nat)) :
    client net1 pem = client net2 pem := by
  rcases pem with _ | bytes
  · simp only [client]
    rw [hbuild]
  · simp only [client]
    rw [hcert bytes, hbuild]

/-- `retrieve_blob` depends on the environment only through its observable
behaviour (certificate parser, client builder, responses). -/
theorem retrieve_blob_ext (net1 net2 : HttpEnv)
    (hsend : ∀ r, net1.send r = net2.send r)
    (hcert : ∀ b, net1.certFromPem b = net2.certFromPem b)
    (hbuild : net1.buildClient = net2.buildClient)
    (img : AduanaImage) (digest : String) :
    retrieve_blob net1 img digest = retrieve_blob net2 img digest := by
  unfold retrieve_blob
  rw [client_ext net1 net2 hcert hbuild, hsend (blobReq img digest)]

/-- `details` depends on the environment only through its observable
behaviour: same registry responses, same result. -/
theorem details_ext (net1 net2 : HttpEnv)
    (hsend : ∀ r, net1.send r = net2.send r)
    (hcert : ∀ b, net1.certFromPem b = net2.certFromPem b)
    (hbuild : net1.buildClient = net2.buildClient)
    (img : AduanaImage) (tag : String) :
    AduanaImage.details net1 img tag = AduanaImage.details net2 img tag := by
  unfold AduanaImage.details
  rw [client_ext net1 net2 hcert hbuild, hsend (manifestReq img tag)]
  simp only [retrieve_blob_ext net1 net2 hsend hcert hbuild]

/-- A fully successful `details(tag)`: exactly two requests are issued —
the manifest request (with the v2 Accept header baked into `manifestReq`)
and then the blob request at the digest extracted from the manifest — and
the result merges the blob's fields with the requested name and tag. -/
theorem details_spec (net : HttpEnv) (img : AduanaImage) (tag : String)
    (mbody : Option Json) (d : String) (bbody : Option Json)
    (blob : ResponseConfigBlob)
    (hclient : client net img.inspector.cert = Except.ok ())
    (hman : net.send (manifestReq img tag) = Except.ok mbody)
    (hmanparse : respJson ResponseManifest.deserialize mbody = Except.ok ⟨⟨d⟩⟩)
    (hblob : net.send (blobReq img d) = Except.ok bbody)
    (hblobparse : respJson ResponseConfigBlob.deserialize bbody = Except.ok blob) :
    AduanaImage.details net img tag =
      (Except.ok { name := img.name, tag := tag, user := blob.config.user,
                   env := blob.config.env, cmd := blob.config.cmd,
                   working_dir := blob.config.working_dir,
                   labels := blob.config.labels, arch := blob.architecture,
                   created := blob.created },
       [manifestReq img tag, blobReq img d]) := by
  have hrb : retrieve_blob net img d = (Except.ok blob, [blobReq img d]) := by
    unfold retrieve_blob
    simp only [hclient, hblob, hblobparse]
  unfold AduanaImage.details
  simp only [hclient, hman, hmanparse, hrb]

/-! ### Concrete environments for witnesses and counterexamples -/

/-- Lookup-table network environment: certificates always parse, the
client always builds, URLs in the table answer with the stored body, and
any other URL refuses the connection. -/
def tableNet (table : List (String × Option Json)) : HttpEnv :=
  { certFromPem := fun _ => .ok ()
  , buildClient := .ok ()
  , send := fun req =>
      match List.lookup req.url table with
      | some body => .ok body
      | none => .error ⟨true, false, some req.url, "connection refused"⟩ }

/-- Registry whose config blob for `app:latest` carries `"Env": null`. -/
def c1net : HttpEnv := tableNet
  [("http://r/v2/app/manifests/latest",
    some (Json.obj [("config", Json.obj [("digest", Json.str "sha256:abc")])])),
   ("http://r/v2/app/blobs/sha256:abc",
    some (Json.obj [("architecture", Json.str "amd64"),
                    ("config", Json.obj [("Env", Json.null)]),
                    ("created", Json.str "2023-01-01")]))]

/-- Handle for the `app` repository against `c1net`. -/
def c1img : AduanaImage :=
  { inspector := AduanaInspector.new "http://r", name := "app", tags := ["latest"] }

/-- C1, counterexample: a config object with `"Env": null` (likewise
`"Cmd": null`) is a serde type error — `#[serde(default)]` only covers a
missing field, and `deserialize_null_default` is applied to `Labels` alone —
so `details()` on a blob carrying `"Env": null` returns a `Runtime` parse
error instead of resolving the field to `[]` as the claim states. -/
theorem configDetails_null_env_cmd_rejected :
    ConfigDetails.deserialize (Json.obj [("Env", Json.null)]) =
      Except.error "invalid type: expected a sequence" ∧
    ConfigDetails.deserialize (Json.obj [("Cmd", Json.null)]) =
      Except.error "invalid type: expected a sequence" ∧
    (AduanaImage.details c1net c1img "latest").1 =
      Except.error (AduanaError.Runtime
        "Failed to get images from Some(http://r/v2/app/blobs/sha256:abc). invalid type: expected a sequence") :=
  ⟨rfl, rfl, rfl⟩

/-- C1, amended: in a config object whose `User`, `WorkingDir` and
`Labels` fields are each absent or explicitly null and whose `Env` and
`Cmd` fields are absent, deserialization succeeds with every field at its
empty default (`None`, `None`, `{}`, `[]`, `[]`); an explicitly null `Env`,
by contrast, makes deserialization fail. -/
theorem configDetails_null_coalescing (fs fs2 : List (String × Json))
    (hu : List.lookup "User" fs = none ∨ List.lookup "User" fs = some Json.null)
    (he : List.lookup "Env" fs = none)
    (hc : List.lookup "Cmd" fs = none)
    (hw : List.lookup "WorkingDir" fs = none ∨
          List.lookup "WorkingDir" fs = some Json.null)
    (hl : List.lookup "Labels" fs = none ∨
          List.lookup "Labels" fs = some Json.null)
    (he2 : List.lookup "Env" fs2 = some Json.null) :
    ConfigDetails.deserialize (Json.obj fs) =
      Except.ok { user := none, env := [], cmd := [], working_dir := none,
                  labels := [] } ∧
    ∃ m, ConfigDetails.deserialize (Json.obj fs2) = Except.error m := by
  constructor
  · have hU : fieldOptStr "User" fs = Except.ok none := by
      unfold fieldOptStr
      rcases hu with h | h <;> (rw [h]; try rfl)
    have hE : fieldStrList "Env" fs = Except.ok [] := by
      unfold fieldStrList; rw [he]
    have hC : fieldStrList "Cmd" fs = Except.ok [] := by
      unfold fieldStrList; rw [hc]
    have hW : fieldOptStr "WorkingDir" fs = Except.ok none := by
      unfold fieldOptStr
      rcases hw with h | h <;> (rw [h]; try rfl)
    have hL : fieldLabels fs = Except.ok [] := by
      unfold fieldLabels
      rcases hl with h | h <;> (rw [h]; try rfl)
    unfold ConfigDetails.deserialize
    simp only [hU, hE, hC, hW, hL]
  · have hE2 : fieldStrList "Env" fs2 =
        Except.error "invalid type: expected a sequence" := by
      unfold fieldStrList; rw [he2]; rfl
    unfold ConfigDetails.deserialize
    rcases hU2 : fieldOptStr "User" fs2 with m | u
    · exact ⟨m, by simp only [hU2]⟩
    · exact ⟨"invalid type: expected a sequence", by simp only [hU2, hE2]⟩

/-- Concrete config object for the C1 witness: every nested field either
absent or explicitly null in the ways the code tolerates. -/
def c1fs : List (String × Json) :=
  [("User", Json.null), ("WorkingDir", Json.null), ("Labels", Json.null)]

/-- Concrete config object with an explicitly null `Env`. -/
def c1fs2 : List (String × Json) := [("Env", Json.null)]

/-- Witness for the amended C1 at concrete inputs. -/
theorem configDetails_null_coalescing_witness :
    (List.lookup "Env" c1fs = none) ∧
    (List.lookup "Env" c1fs2 = some Json.null) ∧
    (ConfigDetails.deserialize (Json.obj c1fs) =
      Except.ok { user := none, env := [], cmd := [], working_dir := none,
                  labels := [] } ∧
     ∃ m, ConfigDetails.deserialize (Json.obj c1fs2) = Except.error m) :=
  ⟨rfl, rfl,
   configDetails_null_coalescing c1fs c1fs2 (Or.inr rfl) rfl rfl
     (Or.inr rfl) (Or.inr rfl) rfl⟩

/-- Registry whose config blob for `app:latest` has only `architecture`
and `created` — no `config` key at all. -/
def c8net : HttpEnv := tableNet
  [("http://r/v2/app/manifests/latest",
    some (Json.obj [("config", Json.obj [("digest", Json.str "sha256:def")])])),
   ("http://r/v2/app/blobs/sha256:def",
    some (Json.obj [("architecture", Json.str "amd64"),
                    ("created", Json.str "2023-01-01")]))]

/-- Handle for the `app` repository against `c8net`. -/
def c8img : AduanaImage :=
  { inspector := AduanaInspector.new "http://r", name := "app", tags := ["latest"] }

/-- C8, counterexample: a config blob JSON in which only `architecture`
and `created` are present — the `config` key itself omitted — does *not*
deserialize (`ResponseConfigBlob` has no `serde(default)`, so `config` is
required), and `details()` on such a blob fails instead of succeeding as
the claim states. -/
theorem blob_missing_config_rejected :
    ResponseConfigBlob.deserialize
      (Json.obj [("architecture", Json.str "amd64"),
                 ("created", Json.str "2023-01-01")]) =
      Except.error "missing field config" ∧
    (AduanaImage.details c8net c8img "latest").1 =
      Except.error (AduanaError.Runtime
        "Failed to get images from Some(http://r/v2/app/blobs/sha256:def). missing field config") :=
  ⟨rfl, rfl⟩

/-- C8, amended: when the blob carries `architecture`, `created` and a
`config` key mapping to an *empty object* (all of the config object's
fields omitted), `details()` succeeds with every config field at its empty
default; if instead the `config` key itself is absent, the blob fails to
parse. -/
theorem details_empty_config_defaults (net : HttpEnv) (img : AduanaImage)
    (tag : String) (mbody : Option Json) (d a c : String)
    (hclient : client net img.inspector.cert = Except.ok ())
    (hman : net.send (manifestReq img tag) = Except.ok mbody)
    (hmanparse : respJson ResponseManifest.deserialize mbody = Except.ok ⟨⟨d⟩⟩)
    (hblob : net.send (blobReq img d) =
      Except.ok (some (Json.obj [("architecture", Json.str a),
                                 ("config", Json.obj []),
                                 ("created", Json.str c)]))) :
    (AduanaImage.details net img tag).1 =
      Except.ok { name := img.name, tag := tag, user := none, env := [],
                  cmd := [], working_dir := none, labels := [], arch := a,
                  created := c } ∧
    ResponseConfigBlob.deserialize
      (Json.obj [("architecture", Json.str a), ("created", Json.str c)]) =
      Except.error "missing field config" := by
  constructor
  · have hparse : respJson ResponseConfigBlob.deserialize
        (some (Json.obj [("architecture", Json.str a),
                         ("config", Json.obj []),
                         ("created", Json.str c)])) =
        Except.ok ⟨a, ⟨none, [], [], none, []⟩, c⟩ := rfl
    rw [details_spec net img tag mbody d _ _ hclient hman hmanparse hblob hparse]
  · rfl

/-- Registry for the C8 witness: blob with `"config": {}`. -/
def c8wnet : HttpEnv := tableNet
  [("http://r/v2/app/manifests/latest",
    some (Json.obj [("config", Json.obj [("digest", Json.str "sha256:eee")])])),
   ("http://r/v2/app/blobs/sha256:eee",
    some (Json.obj [("architecture", Json.str "arm64"),
                    ("config", Json.obj []),
                    ("created", Json.str "2024-05-05")]))]

/-- Witness for the amended C8 at concrete inputs. -/
theorem details_empty_config_defaults_witness :
    (AduanaImage.details c8wnet c8img "latest").1 =
      Except.ok { name := "app", tag := "latest", user := none, env := [],
                  cmd := [], working_dir := none, labels := [],
                  arch := "arm64", created := "2024-05-05" } ∧
    ResponseConfigBlob.deserialize
      (Json.obj [("architecture", Json.str "arm64"),
                 ("created", Json.str "2024-05-05")]) =
      Except.error "missing field config" :=
  details_empty_config_defaults c8wnet c8img "latest"
    (some (Json.obj [("config", Json.obj [("digest", Json.str "sha256:eee")])]))
    "sha256:eee" "arm64" "2024-05-05" rfl rfl rfl rfl

/-- C2: reqwest-error classification surfaced by `images()`.  When the
catalog GET itself fails: a builder error with no extractable URL (the
shape produced by an unparsable base URL such as `":xx:x"`) yields a
`Connection` error whose `url` is the literal `"invalid"`; in general any
connect-phase or builder error yields `Connection` carrying the error's
URL or `"invalid"`, and every other reqwest error yields `Runtime`. -/
theorem images_connection_vs_runtime (net : HttpEnv) (insp : AduanaInspector)
    (e : ReqwestError)
    (hclient : client net insp.cert = Except.ok ())
    (hsend : net.send (catalogReq insp) = Except.error e) :
    (e.is_builder = true → e.url = none →
      (AduanaInspector.images net insp).1 =
        Except.error (AduanaError.Connection "invalid" e.msg)) ∧
    ((e.is_connect || e.is_builder) = true →
      (AduanaInspector.images net insp).1 =
        Except.error (AduanaError.Connection (e.url.getD "invalid") e.msg)) ∧
    ((e.is_connect || e.is_builder) = false →
      (AduanaInspector.images net insp).1 =
        Except.error (AduanaError.Runtime (runtimeMsg e))) ∧
    (∀ e2 : ReqwestError, (e2.is_connect || e2.is_builder) = true →
      AduanaError.fromReqwest e2 =
        AduanaError.Connection (e2.url.getD "invalid") e2.msg) ∧
    (∀ e2 : ReqwestError, (e2.is_connect || e2.is_builder) = false →
      AduanaError.fromReqwest e2 = AduanaError.Runtime (runtimeMsg e2)) := by
  have himg : (AduanaInspector.images net insp).1 =
      Except.error (AduanaError.fromReqwest e) := by
    unfold AduanaInspector.images
    simp only [hclient, hsend]
  refine ⟨?_, ?_, ?_, ?_, ?_⟩
  · intro hb hu
    rw [himg]
    unfold AduanaError.fromReqwest
    rw [hb, hu]
    simp
  · intro hcb
    rw [himg]
    unfold AduanaError.fromReqwest
    rw [hcb]
    simp
  · intro hcb
    rw [himg]
    unfold AduanaError.fromReqwest
    rw [hcb]
    simp
  · intro e2 hcb
    unfold AduanaError.fromReqwest
    rw [hcb]
    simp
  · intro e2 hcb
    unfold AduanaError.fromReqwest
    rw [hcb]
    simp

/-- The builder error reqwest produces when the request URL cannot be
parsed: `is_builder` set, no URL attached. -/
def c2err : ReqwestError :=
  { is_connect := false, is_builder := true, url := none,
    msg := "builder error: RelativeUrlWithoutBase" }

/-- Environment in which every request fails at the builder stage, as
happens for an inspector whose base URL is unparsable. -/
def c2net : HttpEnv :=
  { certFromPem := fun _ => .ok ()
  , buildClient := .ok ()
  , send := fun _ => .error c2err }

/-- Witness for C2: the `":xx:x"` inspector of the repository's
`wrong_url` test, ending in `Connection` with `url = "invalid"`. -/
theorem images_connection_vs_runtime_witness :
    (AduanaInspector.images c2net (AduanaInspector.new ":xx:x")).1 =
      Except.error (AduanaError.Connection "invalid"
        "builder error: RelativeUrlWithoutBase") :=
  (images_connection_vs_runtime c2net (AduanaInspector.new ":xx:x") c2err
    rfl rfl).1 rfl rfl

/-- C4: if the catalog parses but the tag-list fetch of some repository in
it fails, `images()` returns an error — never a partial list of handles
for the repositories processed before the failure. -/
theorem images_abort_on_tag_failure (net : HttpEnv) (insp : AduanaInspector)
    (cbody : Option Json) (repos : List String) (n : String) (e : AduanaError)
    (hclient : client net insp.cert = Except.ok ())
    (hsend : net.send (catalogReq insp) = Except.ok cbody)
    (hcat : respJson ResponseCatalog.deserialize cbody = Except.ok ⟨repos⟩)
    (hmem : n ∈ repos)
    (hfail : (retrieve_image net insp n).1 = Except.error e) :
    ∃ e2, (AduanaInspector.images net insp).1 = Except.error e2 ∧
      ∀ l, (AduanaInspector.images net insp).1 ≠ Except.ok l := by
  obtain ⟨e2, hloop⟩ := imagesLoop_fails net insp e repos n hmem hfail
  have himg : (AduanaInspector.images net insp).1 = Except.error e2 := by
    unfold AduanaInspector.images
    simp only [hclient, hsend, hcat]
    rcases hL : imagesLoop net insp repos with ⟨r, t⟩
    rw [hL] at hloop
    simp only at hloop
    simp only [hloop]
  exact ⟨e2, himg, fun l hl => by rw [himg] at hl; exact Except.noConfusion hl⟩

/-- Registry whose catalog lists two repositories but serves tag lists
only for the first: the second tag-list fetch is refused. -/
def c4net : HttpEnv := tableNet
  [("http://r/v2/_catalog",
    some (Json.obj [("repositories",
      Json.arr [Json.str "alpine", Json.str "missing"])])),
   ("http://r/v2/alpine/tags/list",
    some (Json.obj [("name", Json.str "alpine"),
                    ("tags", Json.arr [Json.str "latest"])]))]

/-- Witness for C4 at a concrete registry with a failing second repo. -/
theorem images_abort_on_tag_failure_witness :
    ∃ e2, (AduanaInspector.images c4net (AduanaInspector.new "http://r")).1 =
        Except.error e2 ∧
      ∀ l, (AduanaInspector.images c4net (AduanaInspector.new "http://r")).1 ≠
        Except.ok l :=
  images_abort_on_tag_failure c4net (AduanaInspector.new "http://r")
    (some (Json.obj [("repositories",
      Json.arr [Json.str "alpine", Json.str "missing"])]))
    ["alpine", "missing"] "missing"
    (AduanaError.Connection "http://r/v2/missing/tags/list" "connection refused")
    rfl rfl rfl (by simp) rfl

/-- C6: every failure of `client` — certificate parsing or client
construction, both of which happen before any network attempt — is a
`Runtime` error with descriptive context, never `Connection`; both
`images()` and `details()` surface it unchanged. -/
theorem client_failure_is_runtime (net : HttpEnv) (insp : AduanaInspector)
    (e : AduanaError)
    (h : client net insp.cert = Except.error e) :
    ((∃ m, e = AduanaError.Runtime ("Failed to parse PEM certificate: " ++ m)) ∨
     (∃ m, e = AduanaError.Runtime ("Failed to build client! " ++ m))) ∧
    (AduanaInspector.images net insp).1 = Except.error e ∧
    (∀ (img : AduanaImage) (tag : String), img.inspector = insp →
      (AduanaImage.details net img tag).1 = Except.error e) := by
  refine ⟨?_, ?_, ?_⟩
  · rcases hc : insp.cert with _ | bytes <;> rw [hc] at h <;> simp only [client] at h
    · rcases hb : net.buildClient with m | u <;> rw [hb] at h <;>
        simp only at h
      · exact Or.inr ⟨m, (Except.error.inj h).symm⟩
      · exact Except.noConfusion h
    · rcases hp : net.certFromPem bytes with m | u <;> rw [hp] at h <;>
        simp only at h
      · exact Or.inl ⟨m, (Except.error.inj h).symm⟩
      · rcases hb : net.buildClient with m | u2 <;> rw [hb] at h <;>
          simp only at h
        · exact Or.inr ⟨m, (Except.error.inj h).symm⟩
        · exact Except.noConfusion h
  · unfold AduanaInspector.images
    simp only [h]
  · intro img tag himg
    unfold AduanaImage.details
    rw [himg]
    simp only [h]

/-- Environment whose certificate parser rejects every input. -/
def c6net : HttpEnv :=
  { certFromPem := fun _ => .error "bad PEM"
  , buildClient := .ok ()
  , send := fun req => .error ⟨true, false, some req.url, "connection refused"⟩ }

/-- Inspector with a (rejected) certificate attached. -/
def c6insp : AduanaInspector :=
  (AduanaInspector.new "https://r").with_cert [0, 1, 2]

/-- Witness for C6 at a concrete environment with malformed PEM bytes. -/
theorem client_failure_is_runtime_witness :
    ((∃ m, AduanaError.Runtime "Failed to parse PEM certificate: bad PEM" =
        AduanaError.Runtime ("Failed to parse PEM certificate: " ++ m)) ∨
     (∃ m, AduanaError.Runtime "Failed to parse PEM certificate: bad PEM" =
        AduanaError.Runtime ("Failed to build client! " ++ m))) ∧
    (AduanaInspector.images c6net c6insp).1 =
      Except.error (AduanaError.Runtime "Failed to parse PEM certificate: bad PEM") ∧
    (∀ (img : AduanaImage) (tag : String), img.inspector = c6insp →
      (AduanaImage.details c6net img tag).1 =
        Except.error (AduanaError.Runtime "Failed to parse PEM certificate: bad PEM")) :=
  client_failure_is_runtime c6net c6insp
    (AduanaError.Runtime "Failed to parse PEM certificate: bad PEM") rfl

/-- C7: when the catalog GET succeeds but its body fails to parse as the
catalog shape, `images()` fails with precisely the `Runtime` error wrapping
the parse failure under the context `"Failed to parse catalog response"` —
in particular never with a `Connection` error. -/
theorem images_catalog_parse_runtime (net : HttpEnv) (insp : AduanaInspector)
    (body : Option Json) (m : String)
    (hclient : client net insp.cert = Except.ok ())
    (hsend : net.send (catalogReq insp) = Except.ok body)
    (hparse : respJson ResponseCatalog.deserialize body = Except.error m) :
    (AduanaInspector.images net insp).1 =
      Except.error (AduanaError.Runtime
        ("Failed to parse catalog response: " ++ m)) := by
  unfold AduanaInspector.images
  simp only [hclient, hsend, hparse]

/-- Registry whose catalog endpoint answers with a JSON string instead of
the catalog object. -/
def c7net : HttpEnv := tableNet
  [("http://r/v2/_catalog", some (Json.str "oops"))]

/-- Witness for C7 at a concrete malformed catalog body. -/
theorem images_catalog_parse_runtime_witness :
    (AduanaInspector.images c7net (AduanaInspector.new "http://r")).1 =
      Except.error (AduanaError.Runtime
        ("Failed to parse catalog response: " ++
         "invalid type: expected struct ResponseCatalog")) :=
  images_catalog_parse_runtime c7net (AduanaInspector.new "http://r")
    (some (Json.str "oops")) "invalid type: expected struct ResponseCatalog"
    rfl rfl rfl

/-- C3: against a valid registry (every catalog name non-empty and echoed
back by its tags/list response), `images()` returns exactly one handle per
catalog repository, in catalog order, each with a non-empty name, and each
handle's tag list is exactly the sequence the tags/list endpoint reported. -/
theorem images_valid_registry (net : HttpEnv) (insp : AduanaInspector)
    (cbody : Option Json) (repos : List String)
    (tagsOf : String → ResponseImage)
    (hclient : client net insp.cert = Except.ok ())
    (hsend : net.send (catalogReq insp) = Except.ok cbody)
    (hcat : respJson ResponseCatalog.deserialize cbody = Except.ok ⟨repos⟩)
    (htags : ∀ n ∈ repos, ∃ b, net.send (tagsReq insp n) = Except.ok b ∧
      respJson ResponseImage.deserialize b = Except.ok (tagsOf n))
    (hvalid : ∀ n ∈ repos, (tagsOf n).name = n ∧ n ≠ "") :
    ∃ l, (AduanaInspector.images net insp).1 = Except.ok l ∧
      l.length = repos.length ∧
      l.map AduanaImage.name = repos ∧
      l.map AduanaImage.tags = repos.map (fun n => (tagsOf n).tags) ∧
      ∀ im ∈ l, im.name ≠ "" := by
  have hret : ∀ n ∈ repos,
      retrieve_image net insp n = (Except.ok (tagsOf n), [tagsReq insp n]) := by
    intro n hn
    obtain ⟨b, hs, hp⟩ := htags n hn
    exact retrieve_image_ok net insp n b (tagsOf n) hclient hs hp
  have himg := images_ok net insp cbody repos tagsOf hclient hsend hcat hret
  refine ⟨repos.map (fun n =>
    { inspector := insp, name := (tagsOf n).name, tags := (tagsOf n).tags }),
    ?_, ?_, ?_, ?_, ?_⟩
  · rw [himg]
  · rw [List.length_map]
  · rw [List.map_map]
    refine (List.map_congr_left ?_).trans (List.map_id repos)
    intro n hn
    exact (hvalid n hn).1
  · rw [List.map_map]
    rfl
  · intro im him
    rw [List.mem_map] at him
    obtain ⟨n, hn, heq⟩ := him
    rw [← heq]
    show (tagsOf n).name ≠ ""
    rw [(hvalid n hn).1]
    exact (hvalid n hn).2

/-- Registry with one repository `alpine` and a duplicate-bearing tag list,
used by the C3, C5 and C9 witnesses. -/
def wnet : HttpEnv := tableNet
  [("http://r/v2/_catalog",
    some (Json.obj [("repositories", Json.arr [Json.str "alpine"])])),
   ("http://r/v2/alpine/tags/list",
    some (Json.obj [("name", Json.str "alpine"),
                    ("tags", Json.arr [Json.str "latest", Json.str "v1",
                                       Json.str "latest"])])),
   ("http://r/v2/alpine/manifests/v1",
    some (Json.obj [("config", Json.obj [("digest", Json.str "sha256:abc")])])),
   ("http://r/v2/alpine/blobs/sha256:abc",
    some (Json.obj [("architecture", Json.str "amd64"),
                    ("config",
                     Json.obj [("User", Json.str "root"),
                               ("Env", Json.arr [Json.str "A=1"]),
                               ("Cmd", Json.arr [Json.str "run"]),
                               ("Labels", Json.null)]),
                    ("created", Json.str "2023-09-09")]))]

/-- Inspector pointed at the witness registry. -/
def winsp : AduanaInspector := AduanaInspector.new "http://r"

/-- The tag-list response of the witness registry's one repository. -/
def wtagsOf : String → ResponseImage :=
  fun _ => ⟨"alpine", ["latest", "v1", "latest"]⟩

/-- Witness for C3: one repository, tag order (duplicates included)
preserved exactly as the registry reported. -/
theorem images_valid_registry_witness :
    ∃ l, (AduanaInspector.images wnet winsp).1 = Except.ok l ∧
      l.length = ["alpine"].length ∧
      l.map AduanaImage.name = ["alpine"] ∧
      l.map AduanaImage.tags = ["alpine"].map (fun n => (wtagsOf n).tags) ∧
      ∀ im ∈ l, im.name ≠ "" :=
  images_valid_registry wnet winsp
    (some (Json.obj [("repositories", Json.arr [Json.str "alpine"])]))
    ["alpine"] wtagsOf rfl rfl rfl
    (by
      intro n hn
      rw [List.mem_singleton] at hn
      subst hn
      exact ⟨some (Json.obj [("name", Json.str "alpine"),
                             ("tags", Json.arr [Json.str "latest", Json.str "v1",
                                                Json.str "latest"])]),
             rfl, rfl⟩)
    (by
      intro n hn
      rw [List.mem_singleton] at hn
      subst hn
      exact ⟨rfl, by decide⟩)

/-- C5: `details(tag)` issues exactly two HTTP requests, in order — the
manifest request (whose Accept header, fixed in `manifestReq`, is the
Docker distribution manifest v2 media type) and then the blob request at
exactly the digest extracted from the manifest response — and the result
carries the image's name, the requested tag, and the remaining fields
straight from the fetched config blob. -/
theorem details_two_fetches (net : HttpEnv) (img : AduanaImage) (tag : String)
    (mbody : Option Json) (d : String) (bbody : Option Json)
    (blob : ResponseConfigBlob)
    (hclient : client net img.inspector.cert = Except.ok ())
    (hman : net.send (manifestReq img tag) = Except.ok mbody)
    (hmanparse : respJson ResponseManifest.deserialize mbody = Except.ok ⟨⟨d⟩⟩)
    (hblob : net.send (blobReq img d) = Except.ok bbody)
    (hblobparse : respJson ResponseConfigBlob.deserialize bbody = Except.ok blob) :
    AduanaImage.details net img tag =
      (Except.ok { name := img.name, tag := tag, user := blob.config.user,
                   env := blob.config.env, cmd := blob.config.cmd,
                   working_dir := blob.config.working_dir,
                   labels := blob.config.labels, arch := blob.architecture,
                   created := blob.created },
       [manifestReq img tag, blobReq img d]) :=
  details_spec net img tag mbody d bbody blob hclient hman hmanparse hblob
    hblobparse

/-- Handle for the `alpine` repository of the witness registry. -/
def wimg : AduanaImage :=
  { inspector := winsp, name := "alpine", tags := ["latest", "v1", "latest"] }

/-- The config blob the witness registry serves at `sha256:abc`. -/
def wblob : ResponseConfigBlob :=
  ⟨"amd64", ⟨some "root", ["A=1"], ["run"], none, []⟩, "2023-09-09"⟩

/-- Witness for C5: resolving `alpine:v1` issues the manifest request and
then the blob request keyed by the digest from the manifest. -/
theorem details_two_fetches_witness :
    AduanaImage.details wnet wimg "v1" =
      (Except.ok { name := "alpine", tag := "v1", user := some "root",
                   env := ["A=1"], cmd := ["run"], working_dir := none,
                   labels := [], arch := "amd64", created := "2023-09-09" },
       [manifestReq wimg "v1", blobReq wimg "sha256:abc"]) :=
  details_two_fetches wnet wimg "v1"
    (some (Json.obj [("config", Json.obj [("digest", Json.str "sha256:abc")])]))
    "sha256:abc"
    (some (Json.obj [("architecture", Json.str "amd64"),
                     ("config",
                      Json.obj [("User", Json.str "root"),
                                ("Env", Json.arr [Json.str "A=1"]),
                                ("Cmd", Json.arr [Json.str "run"]),
                                ("Labels", Json.null)]),
                     ("created", Json.str "2023-09-09")]))
    wblob rfl rfl rfl rfl rfl

/-- C9: `details` is deterministic in the registry's observable responses
and keeps no state between calls — a second call against any environment
with the same responses returns a field-for-field identical value, and
running the call twice in sequence yields the identical pair. -/
theorem details_deterministic (net1 net2 : HttpEnv) (img : AduanaImage)
    (tag : String) (d : ImageDetails) (t : List Request)
    (hsend : ∀ r, net1.send r = net2.send r)
    (hcert : ∀ b, net1.certFromPem b = net2.certFromPem b)
    (hbuild : net1.buildClient = net2.buildClient)
    (h : AduanaImage.details net1 img tag = (Except.ok d, t)) :
    detailsTwice net1 img tag = (Except.ok (d, d), t ++ t) ∧
    AduanaImage.details net2 img tag = (Except.ok d, t) := by
  constructor
  · unfold detailsTwice
    simp only [h]
  · rw [← details_ext net1 net2 hsend hcert hbuild img tag]
    exact h

/-- The value `details` resolves for `alpine:v1` on the witness registry. -/
def wdetails : ImageDetails :=
  { name := "alpine", tag := "v1", user := some "root", env := ["A=1"],
    cmd := ["run"], working_dir := none, labels := [], arch := "amd64",
    created := "2023-09-09" }

/-- The two requests `details` issues for `alpine:v1` on the witness
registry. -/
def wtrace : List Request := [manifestReq wimg "v1", blobReq wimg "sha256:abc"]

/-- Witness for C9 at the concrete witness registry. -/
theorem details_deterministic_witness :
    detailsTwice wnet wimg "v1" = (Except.ok (wdetails, wdetails), wtrace ++ wtrace) ∧
    AduanaImage.details wnet wimg "v1" = (Except.ok wdetails, wtrace) :=
  details_deterministic wnet wnet wimg "v1" wdetails wtrace
    (fun _ => rfl) (fun _ => rfl) rfl rfl

/-- C10: the name stored in each handle is the `name` field of the
tags/list response body (`tagsOf n`), while the catalog name `n` is used
only to build the tags/list request URL (`tagsReq insp n`); when the two
differ the handle carries the tags/list name. -/
theorem images_name_from_tags_body (net : HttpEnv) (insp : AduanaInspector)
    (cbody : Option Json) (repos : List String)
    (tagsOf : String → ResponseImage)
    (hclient : client net insp.cert = Except.ok ())
    (hsend : net.send (catalogReq insp) = Except.ok cbody)
    (hcat : respJson ResponseCatalog.deserialize cbody = Except.ok ⟨repos⟩)
    (htags : ∀ n ∈ repos, ∃ b, net.send (tagsReq insp n) = Except.ok b ∧
      respJson ResponseImage.deserialize b = Except.ok (tagsOf n)) :
    AduanaInspector.images net insp =
      (Except.ok (repos.map fun n =>
        { inspector := insp, name := (tagsOf n).name, tags := (tagsOf n).tags }),
       catalogReq insp :: repos.map fun n => tagsReq insp n) := by
  have hret : ∀ n ∈ repos,
      retrieve_image net insp n = (Except.ok (tagsOf n), [tagsReq insp n]) := by
    intro n hn
    obtain ⟨b, hs, hp⟩ := htags n hn
    exact retrieve_image_ok net insp n b (tagsOf n) hclient hs hp
  exact images_ok net insp cbody repos tagsOf hclient hsend hcat hret

/-- Registry whose tags/list response reports a different `name`
(`library/alpine`) than the catalog entry (`alpine`). -/
def c10net : HttpEnv := tableNet
  [("http://r/v2/_catalog",
    some (Json.obj [("repositories", Json.arr [Json.str "alpine"])])),
   ("http://r/v2/alpine/tags/list",
    some (Json.obj [("name", Json.str "library/alpine"),
                    ("tags", Json.arr [Json.str "latest"])]))]

/-- Witness for C10: the handle carries `library/alpine` (from the
tags/list body) while the request URL was built from the catalog name. -/
theorem images_name_from_tags_body_witness :
    AduanaInspector.images c10net winsp =
      (Except.ok [{ inspector := winsp, name := "library/alpine",
                    tags := ["latest"] }],
       [catalogReq winsp, tagsReq winsp "alpine"]) :=
  images_name_from_tags_body c10net winsp
    (some (Json.obj [("repositories", Json.arr [Json.str "alpine"])]))
    ["alpine"] (fun _ => ⟨"library/alpine", ["latest"]⟩) rfl rfl rfl
    (by
      intro n hn
      rw [List.mem_singleton] at hn
      subst hn
      exact ⟨some (Json.obj [("name", Json.str "library/alpine"),
                             ("tags", Json.arr [Json.str "latest"])]),
             rfl, rfl⟩)
